import Mathlib

/-!
Verification of the rate-limit tracking and posting-gate subsystem of
NBAPredictLab against its natural-language specification.

The subsystem lives in two Python modules:

* `src/tweet_counter.py` — the local action log (`data/tweet_history.json`)
  and the per-post rate-limit cache (`data/latest_rate_limit.json`);
* `src/twitter_rate_limits.py` — the quota-snapshot cache
  (`data/twitter_rate_limits_cache.json`) and the admission gate
  `check_can_post_tweet`.

The embedding below models instants as integers (Unix epoch seconds); all
Python `datetime` arithmetic in the source is exact second arithmetic, so
nothing is lost.  JSON dictionary fields that may be absent are modelled as
`Option` fields.  A Python function that can raise an exception to its caller
is modelled with `Except`; a Python function that swallows all exceptions and
returns a default is modelled as total, with the exception branch made
explicit.
-/

namespace NBAPredict

/-! ### `src/tweet_counter.py` -/

/-- `FREE_TIER_24H_LIMIT = 17` (both modules define this constant). -/
def FREE_TIER_24H_LIMIT : Int := 17

/-- One entry of the action log `data/tweet_history.json` as the code reads
it back: `{tweet_id, posted_at, text_preview}`.  `posted_at` is the result of
`datetime.fromisoformat` applied to the posted_at field, converted to epoch seconds;
`none` models a missing key or an unparseable string (either makes
`fromisoformat` / the key lookup raise inside the loop of
`get_tweet_count_24h`). -/
structure RawTweet where
  tweet_id : String
  posted_at : Option Int
  text_preview : String
deriving DecidableEq, Repr

/-- One element of the `tweets_24h` list built by `get_tweet_count_24h`
(source lines 81–86): `{id, posted_at, text, age_hours}`.  `age_seconds`
models `age_hours * 3600` exactly. -/
structure TweetEntry where
  id : String
  posted_at : Int
  text : String
  age_seconds : Int
deriving DecidableEq, Repr

/-- The dictionary returned by `get_tweet_count_24h`.  `oldest_age_seconds`
models `oldest_tweet_age_hours * 3600`; `error` records whether the `except`
branch produced the result (in which case the `error` key is present in the
Python dict). -/
structure TweetCountResult where
  count : Nat
  limit : Int
  remaining : Int
  tweets : List TweetEntry
  oldest_age_seconds : Option Int
  error : Bool
deriving DecidableEq, Repr

/-- The parse loop of `get_tweet_count_24h` (source lines 78–86): every log
entry has its posted_at field parsed with `datetime.fromisoformat` before the window
test, so the first missing or malformed timestamp aborts the whole loop with
an exception.  `none` models that exception. -/
def parseLog : List RawTweet → Option (List (RawTweet × Int))
  | [] => some []
  | t :: ts =>
    match t.posted_at with
    | none => none
    | some p => (parseLog ts).map fun ps => (t, p) :: ps

/-- The `tweets_24h` entry built for an in-window log entry
(source lines 81–86). -/
def mkTweetEntry (now : Int) (e : RawTweet × Int) : TweetEntry :=
  { id := e.1.tweet_id
    posted_at := e.2
    text := e.1.text_preview
    age_seconds := now - e.2 }

/-- Sort order used to model
`sorted(tweets_24h, key=lambda t: t[...], reverse=True)` over the posted_at key
(source line 108): most recent first.  The source sorts the ISO-8601
timestamp strings; for the uniform UTC format the log writer
`log_tweet_posted` produces, string order coincides with instant order. -/
def moreRecentFirst (a b : TweetEntry) : Prop :=
  b.posted_at ≤ a.posted_at

instance : DecidableRel moreRecentFirst :=
  fun _ _ => Int.decLe _ _

instance : IsTotal TweetEntry moreRecentFirst :=
  ⟨fun a b => Int.le_total b.posted_at a.posted_at⟩

instance : IsTrans TweetEntry moreRecentFirst :=
  ⟨fun _ _ _ h1 h2 => le_trans h2 h1⟩

/-- The dictionary returned from the `except` branch of
`get_tweet_count_24h` (source lines 122–129): full quota, no tweets, with an
`error` field. -/
def tweetCountErrorResult : TweetCountResult :=
  { count := 0
    limit := FREE_TIER_24H_LIMIT
    remaining := FREE_TIER_24H_LIMIT
    tweets := []
    oldest_age_seconds := none
    error := true }

/-- `get_tweet_count_24h` (source lines 63–129).  `now` is
`datetime.now(timezone.utc)` in epoch seconds; the 24-hour cutoff is
`now - 86400`.  The filesystem side effects (`_cleanup_old_tweets`, reading
the separate rate-limit cache) do not affect the fields the claims are about
and are omitted; `_load_tweet_log` yields `log`. -/
def get_tweet_count_24h (log : List RawTweet) (now : Int) : TweetCountResult :=
  match parseLog log with
  | none => tweetCountErrorResult
  | some parsed =>
    let tweets_24h := (parsed.filter fun e => now - 86400 ≤ e.2).map (mkTweetEntry now)
    let count := tweets_24h.length
    let remaining := max 0 (FREE_TIER_24H_LIMIT - (count : Int))
    let oldest := (tweets_24h.map (·.posted_at)).min?.map fun p => now - p
    { count := count
      limit := FREE_TIER_24H_LIMIT
      remaining := remaining
      tweets := List.insertionSort moreRecentFirst tweets_24h
      oldest_age_seconds := oldest
      error := false }

/-- Contents of `data/latest_rate_limit.json`, the per-post rate-limit cache
written by `_save_latest_rate_limit` and read by `get_latest_rate_limit`.
Numeric fields are `none` when the key is missing or holds JSON `null`;
`reset` holds a Unix-epoch instant and `timestamp` the parsed ISO capture
instant. -/
structure RateLimitCache where
  remaining : Option Int
  limit : Option Int
  reset : Option Int
  timestamp : Option Int
deriving DecidableEq, Repr

/-- `_save_latest_rate_limit` (source lines 184–198): the cache record is the
remaining, limit and reset fields of the input rate_limit_info copied verbatim via
`.get`, plus a fresh capture timestamp.  No validation or clamping occurs. -/
def save_latest_rate_limit (info : RateLimitCache) (now : Int) : RateLimitCache :=
  { remaining := info.remaining
    limit := info.limit
    reset := info.reset
    timestamp := some now }

/-- `get_latest_rate_limit` (source lines 201–233).  `file` is the parsed
cache file (`none` when the file is missing or unreadable).  The Python
truthiness test on the reset field is false exactly when the key is absent,
`null`, or `0`, which `d.reset.getD 0 ≠ 0` captures.  A missing `timestamp`
makes `fromisoformat` raise, which the handler turns into `None`. -/
def get_latest_rate_limit (file : Option RateLimitCache) (now : Int) :
    Option RateLimitCache :=
  match file with
  | none => none
  | some d =>
    if d.remaining = some 0 ∧ d.reset.getD 0 ≠ 0 then
      match d.reset with
      | some r => if now < r then some d else none
      | none => none
    else
      match d.timestamp with
      | some t => if now - t < 3600 then some d else none
      | none => none

/-! ### `src/twitter_rate_limits.py` -/

/-- One per-scope entry of the quota-snapshot cache (the values of the
`app_24h`, `user_24h` and `window_15min` keys).  Fields are `none` when the
key is absent from the dictionary. -/
structure ScopeEntry where
  limit : Option Int
  remaining : Option Int
  reset : Option Int
deriving DecidableEq, Repr

/-- The empty dictionary that the per-scope lookup in the gate substitutes
for a missing scope (source lines 588–589). -/
def ScopeEntry.empty : ScopeEntry :=
  { limit := none, remaining := none, reset := none }

/-- Contents of `data/twitter_rate_limits_cache.json`.  `timestamp` is the
parsed ISO capture instant (`none` models a missing key or a parse failure,
both of which raise inside `get_cached_rate_limits` and are swallowed into
`None`).  The file may also be a record written by `count_tweets_last_24h`
(with keys tweet_count_24h, user_id, timestamp and source = tweet_count),
which this structure represents with all three scope fields `none`. -/
structure CacheFile where
  app_24h : Option ScopeEntry
  user_24h : Option ScopeEntry
  window_15min : Option ScopeEntry
  timestamp : Option Int
  source : Option String
deriving DecidableEq, Repr

/-- `get_cached_rate_limits` (source lines 451–473): return the parsed cache
file whenever its capture timestamp is less than 24 hours old, `None`
otherwise.  The age test is the only staleness test; the reset
instants are not consulted. -/
def get_cached_rate_limits (file : Option CacheFile) (now : Int) : Option CacheFile :=
  match file with
  | none => none
  | some data =>
    match data.timestamp with
    | none => none
    | some t => if now - t < 86400 then some data else none

/-- `get_24h_rate_limits_from_api` (source lines 25–53, the live part of the
function).  The function returns the cached data when its `source` is
`error_headers` or `error_response`, and otherwise returns `None` at line 53;
everything after that line (the `if False` block and the 429-header
extraction) is unreachable. -/
def get_24h_rate_limits_from_api (file : Option CacheFile) (now : Int) :
    Option CacheFile :=
  match get_cached_rate_limits file now with
  | some c =>
    if c.source = some "error_headers" ∨ c.source = some "error_response" then
      some c
    else
      none
  | none => none

/-- The scope named by a denial message of `check_can_post_tweet`. -/
inductive Scope where
  | app
  | user
deriving DecidableEq, Repr

/-- The messages `check_can_post_tweet` returns, kept structured.
`unknownProceed` denotes the string
`"Rate limit status unknown - proceed with caution"`;
`exhausted scope r s` denotes
`"<APP|USER> 24-hour limit exhausted. Resets in <s/3600 : .1f> hours at …"`
with `r` the raw reset instant and `s = r − now` the signed seconds until
reset (the source divides by 3600 for display and applies no clamping);
`canPost m` denotes `"Can post - <m> tweets remaining in 24h window"`. -/
inductive GateMsg where
  | unknownProceed
  | exhausted (scope : Scope) (reset_ts : Int) (seconds_until_reset : Int)
  | canPost (min_remaining : Int)
deriving DecidableEq, Repr

/-- A Python exception escaping to the caller. -/
inductive PyError where
  | keyError (key : String)
deriving DecidableEq, Repr

/-- The ambient state `check_can_post_tweet` runs in: the quota-snapshot
cache file, the action log file, and the current instant.  The action log is
part of the world so that theorems can state that the gate is independent of
it; the body of the gate never reads it. -/
structure World where
  cache_file : Option CacheFile
  tweet_log : List RawTweet
  now : Int

/-- The `limits` value of `check_can_post_tweet` (source lines 578–582):
the live lookup, falling back to the cache when the live lookup yields
nothing. -/
def gate_limits (w : World) : Option CacheFile :=
  match get_24h_rate_limits_from_api w.cache_file w.now with
  | some l => some l
  | none => get_cached_rate_limits w.cache_file w.now

/-- `check_can_post_tweet` (source lines 570–604).  With no data at all the
gate allows with the unknown-status message.  Otherwise each per-scope
`remaining` defaults to `0` when absent, a scope with `remaining == 0` denies
— evaluating the reset key of that scope, which raises `KeyError`
when the key is absent — and otherwise the gate allows, reporting the minimum
remaining across the two scopes. -/
def check_can_post_tweet (w : World) : Except PyError (Bool × GateMsg) :=
  match gate_limits w with
  | none => .ok (true, .unknownProceed)
  | some limits =>
    let app := limits.app_24h.getD ScopeEntry.empty
    let user := limits.user_24h.getD ScopeEntry.empty
    let app_remaining := app.remaining.getD 0
    let user_remaining := user.remaining.getD 0
    if app_remaining = 0 then
      match app.reset with
      | none => .error (.keyError "reset")
      | some r => .ok (false, .exhausted .app r (r - w.now))
    else if user_remaining = 0 then
      match user.reset with
      | none => .error (.keyError "reset")
      | some r => .ok (false, .exhausted .user r (r - w.now))
    else
      .ok (true, .canPost (min app_remaining user_remaining))

/-- The response headers of a 429 rejection, as read by the handler at
source lines 204–269.  `none` models a header that is absent or empty
(both are falsy in the `int(x) if x else default` pattern of the source). -/
structure Headers429 where
  app_limit : Option Int
  app_remaining : Option Int
  app_reset : Option Int
  user_limit : Option Int
  user_remaining : Option Int
  user_reset : Option Int
  rate_limit_limit : Option Int
  rate_limit_remaining : Option Int
  rate_limit_reset : Option Int
deriving DecidableEq, Repr

/-- The snapshot construction of the `tweepy.TooManyRequests` handler
(source lines 204–259): each header value is copied verbatim, with per-field
defaults `limit = FREE_TIER_24H_LIMIT`, `remaining = 0`, `reset = 0` for the
24-hour scopes and `limit = 300` for the 15-minute window, and
`source = error_headers`.  (In the current source this handler is
unreachable from `get_24h_rate_limits_from_api`, which returns at line 53;
the construction itself is embedded here as written.) -/
def extract_limits_from_429 (h : Headers429) (now : Int) : CacheFile :=
  { app_24h := some
      { limit := some (h.app_limit.getD FREE_TIER_24H_LIMIT)
        remaining := some (h.app_remaining.getD 0)
        reset := some (h.app_reset.getD 0) }
    user_24h := some
      { limit := some (h.user_limit.getD FREE_TIER_24H_LIMIT)
        remaining := some (h.user_remaining.getD 0)
        reset := some (h.user_reset.getD 0) }
    window_15min := some
      { limit := some (h.rate_limit_limit.getD 300)
        remaining := some (h.rate_limit_remaining.getD 0)
        reset := some (h.rate_limit_reset.getD 0) }
    timestamp := some now
    source := some "error_headers" }

/-! ### Helper lemmas -/

/-- A single log entry with a missing or malformed timestamp makes the parse
loop of `get_tweet_count_24h` abort. -/
theorem parseLog_eq_none_of_bad_entry {log : List RawTweet} {t : RawTweet}
    (hmem : t ∈ log) (hbad : t.posted_at = none) : parseLog log = none := by
  induction log with
  | nil => cases hmem
  | cons x xs ih =>
    rcases List.mem_cons.mp hmem with h | h
    · subst h
      simp [parseLog, hbad]
    · have hxs : parseLog xs = none := ih h
      cases hx : x.posted_at <;> simp [parseLog, hx, hxs]

/-- Whenever the raw cache loads successfully, the two-step lookup of the
gate (live attempt, then cache fallback) resolves to the loaded cache,
whatever the source tag is. -/
theorem gate_limits_of_cached {w : World} {l : CacheFile}
    (h : get_cached_rate_limits w.cache_file w.now = some l) :
    gate_limits w = some l := by
  by_cases hs : l.source = some "error_headers" ∨ l.source = some "error_response"
  · simp [gate_limits, get_24h_rate_limits_from_api, h, hs]
  · simp [gate_limits, get_24h_rate_limits_from_api, h, hs]

/-! ### Claims -/

/-- C4: `get_latest_rate_limit` applies asymmetric staleness.  A cached
record with `remaining = 0` and a (truthy) reset instant is returned as valid
evidence of exhaustion whenever `now < reset`, for every capture timestamp
(hence regardless of age), and is treated as absent once `reset ≤ now`; a
cached record with `remaining > 0` is treated as absent once its age reaches
the 1-hour freshness window. -/
theorem claim4_asymmetric_staleness (d : RateLimitCache) (now : Int) :
    (d.remaining = some 0 → ∀ r, d.reset = some r → r ≠ 0 →
      ((now < r → get_latest_rate_limit (some d) now = some d)
        ∧ (r ≤ now → get_latest_rate_limit (some d) now = none)))
    ∧ (∀ k, d.remaining = some k → 0 < k → ∀ t, d.timestamp = some t →
        3600 ≤ now - t → get_latest_rate_limit (some d) now = none) := by
  constructor
  · intro h0 r hr hrne
    constructor
    · intro hlt
      simp [get_latest_rate_limit, h0, hr, hrne, hlt]
    · intro hle
      simp [get_latest_rate_limit, h0, hr, hrne]
      all_goals omega
  · intro k hk hkpos t ht hage
    have hkne : k ≠ 0 := by omega
    simp [get_latest_rate_limit, hk, hkne, ht]
    all_goals omega

/-- Witness for C4: a record with `remaining = 0`, reset at 500 and a
capture timestamp far in the past is still returned at `now = 100`; a record
with `remaining = 3` captured at 0 is absent at `now = 5000`. -/
theorem claim4_witness :
    get_latest_rate_limit (some ⟨some 0, some 17, some 500, some (-999999)⟩) 100
      = some ⟨some 0, some 17, some 500, some (-999999)⟩
    ∧ get_latest_rate_limit (some ⟨some 3, some 17, some 500, some 0⟩) 5000 = none :=
  ⟨((claim4_asymmetric_staleness ⟨some 0, some 17, some 500, some (-999999)⟩ 100).1
      rfl 500 rfl (by decide)).1 (by decide),
    (claim4_asymmetric_staleness ⟨some 3, some 17, some 500, some 0⟩ 5000).2
      3 rfl (by decide) 0 rfl (by decide)⟩

/-- C5: with no quota data at all — an empty action log and no cache file —
the admission check returns `allowed = true` with the unknown-status message
(the source string is `"Rate limit status unknown - proceed with caution"`),
rather than blocking. -/
theorem claim5_no_data_fails_open (now : Int) :
    check_can_post_tweet { cache_file := none, tweet_log := [], now := now }
      = .ok (true, .unknownProceed)
    ∧ (get_tweet_count_24h [] now).count = 0 :=
  ⟨rfl, rfl⟩

/-- C6: the admission check can raise.  On a cache file that the code itself
writes (the `source = tweet_count` record of `count_tweets_last_24h`, which
has no per-scope entries), `check_can_post_tweet` defaults the missing
application-scope `remaining` to `0` and then evaluates the absent reset key,
raising `KeyError` to the caller instead of returning a value. -/
theorem claim6_check_raises_keyerror :
    check_can_post_tweet
      { cache_file := some
          { app_24h := none, user_24h := none, window_15min := none
            timestamp := some 940, source := some "tweet_count" }
        tweet_log := [], now := 1000 }
      = .error (.keyError "reset") :=
  rfl

/-- C9: on a well-formed action log (every entry parses), the result of
`get_tweet_count_24h` is not the error record, its `count` is the number of
entries with timestamp at or after `now - 24h`, its `remaining` is
`max 0 (17 - count)`, and its `tweets` list is a permutation of the matching
entries sorted most-recent-first. -/
theorem claim9_count_remaining_sorted (log : List RawTweet) (now : Int)
    (parsed : List (RawTweet × Int)) (hp : parseLog log = some parsed) :
    (get_tweet_count_24h log now).error = false
    ∧ (get_tweet_count_24h log now).count
        = (parsed.filter fun e => now - 86400 ≤ e.2).length
    ∧ (get_tweet_count_24h log now).remaining
        = max 0 (FREE_TIER_24H_LIMIT - ((get_tweet_count_24h log now).count : Int))
    ∧ ((get_tweet_count_24h log now).tweets).Perm
        ((parsed.filter fun e => now - 86400 ≤ e.2).map (mkTweetEntry now))
    ∧ ((get_tweet_count_24h log now).tweets).Sorted moreRecentFirst := by
  unfold get_tweet_count_24h
  rw [hp]
  refine ⟨rfl, ?_, rfl, ?_, ?_⟩
  · exact List.length_map _ _
  · exact List.perm_insertionSort _ _
  · exact List.sorted_insertionSort _ _

/-- Witness for C9 on a two-entry log at `now = 200`: both entries are in
the window; the count is 2, the remaining 15, and the tweets are the two
matching entries most-recent-first. -/
theorem claim9_witness :
    parseLog [⟨"a", some 100, "x"⟩, ⟨"b", some 50, "y"⟩]
      = some [(⟨"a", some 100, "x"⟩, 100), (⟨"b", some 50, "y"⟩, 50)]
    ∧ ((get_tweet_count_24h [⟨"a", some 100, "x"⟩, ⟨"b", some 50, "y"⟩] 200).error = false
      ∧ (get_tweet_count_24h [⟨"a", some 100, "x"⟩, ⟨"b", some 50, "y"⟩] 200).count
          = (([(⟨"a", some 100, "x"⟩, 100), (⟨"b", some 50, "y"⟩, 50)] :
              List (RawTweet × Int)).filter fun e => (200 : Int) - 86400 ≤ e.2).length
      ∧ (get_tweet_count_24h [⟨"a", some 100, "x"⟩, ⟨"b", some 50, "y"⟩] 200).remaining
          = max 0 (FREE_TIER_24H_LIMIT
              - ((get_tweet_count_24h [⟨"a", some 100, "x"⟩, ⟨"b", some 50, "y"⟩] 200).count : Int))
      ∧ ((get_tweet_count_24h [⟨"a", some 100, "x"⟩, ⟨"b", some 50, "y"⟩] 200).tweets).Perm
          ((([(⟨"a", some 100, "x"⟩, 100), (⟨"b", some 50, "y"⟩, 50)] :
              List (RawTweet × Int)).filter fun e => (200 : Int) - 86400 ≤ e.2).map
            (mkTweetEntry 200))
      ∧ ((get_tweet_count_24h [⟨"a", some 100, "x"⟩, ⟨"b", some 50, "y"⟩] 200).tweets).Sorted
          moreRecentFirst) :=
  ⟨rfl, claim9_count_remaining_sorted [⟨"a", some 100, "x"⟩, ⟨"b", some 50, "y"⟩] 200
    [(⟨"a", some 100, "x"⟩, 100), (⟨"b", some 50, "y"⟩, 50)] rfl⟩

/-- C10: if the action log parses as JSON but any entry has a missing or
malformed posted_at timestamp, `get_tweet_count_24h` returns the full-quota
error record — `count = 0`, `remaining = 17`, no tweets, `error` set — even
when other entries are well-formed, rather than raising or returning a
partial count. -/
theorem claim10_malformed_entry_full_quota (log : List RawTweet) (now : Int)
    (t : RawTweet) (hmem : t ∈ log) (hbad : t.posted_at = none) :
    get_tweet_count_24h log now
      = { count := 0, limit := FREE_TIER_24H_LIMIT, remaining := FREE_TIER_24H_LIMIT
          tweets := [], oldest_age_seconds := none, error := true } := by
  unfold get_tweet_count_24h
  rw [parseLog_eq_none_of_bad_entry hmem hbad]
  rfl

/-- Witness for C10: a log holding one well-formed entry and one entry with
a missing timestamp yields the full-quota error record. -/
theorem claim10_witness :
    (⟨"b", none, "y"⟩ : RawTweet) ∈
        [(⟨"a", some 100, "x"⟩ : RawTweet), ⟨"b", none, "y"⟩]
    ∧ get_tweet_count_24h [⟨"a", some 100, "x"⟩, ⟨"b", none, "y"⟩] 200
        = { count := 0, limit := FREE_TIER_24H_LIMIT, remaining := FREE_TIER_24H_LIMIT
            tweets := [], oldest_age_seconds := none, error := true } :=
  ⟨by decide,
    claim10_malformed_entry_full_quota [⟨"a", some 100, "x"⟩, ⟨"b", none, "y"⟩] 200
      ⟨"b", none, "y"⟩ (by decide) rfl⟩

/-- C1 counterexample: a fresh cached limits object whose application scope
carries the numeric remaining value `-1` and whose user scope carries `5`.
The claim demands `allowed = true` exactly when both values are strictly
positive (here: false), but the gate only tests equality with zero and
returns `allowed = true`. -/
theorem claim1_counterexample :
    ¬ (((check_can_post_tweet
          { cache_file := some
              { app_24h := some { limit := some 17, remaining := some (-1), reset := some 1000 }
                user_24h := some { limit := some 17, remaining := some 5, reset := some 1000 }
                window_15min := none
                timestamp := some 0
                source := some "error_headers" }
            tweet_log := [], now := 100 }).toOption.map Prod.fst = some true)
        ↔ ((0 : Int) < -1 ∧ (0 : Int) < 5)) := by
  decide

/-- C1 amended: for every limits object the gate resolves (live or from
cache) whose two 24-hour scopes carry numeric remaining values, the check
returns `allowed = true` exactly when both values are nonzero (the source
compares with `== 0`); this coincides with the claimed strict positivity
only when neither value is negative. -/
theorem claim1_amended_allowed_iff_remaining_nonzero
    (w : World) (l : CacheFile) (a u : ScopeEntry) (ar ur : Int)
    (hl : gate_limits w = some l)
    (ha : l.app_24h = some a) (hu : l.user_24h = some u)
    (har : a.remaining = some ar) (hur : u.remaining = some ur) :
    (check_can_post_tweet w).toOption.map Prod.fst = some true
      ↔ (ar ≠ 0 ∧ ur ≠ 0) := by
  unfold check_can_post_tweet
  rw [hl]
  simp only [ha, hu, Option.getD_some, har, hur]
  by_cases h1 : ar = 0
  · cases hres : a.reset <;> simp [h1, hres, Except.toOption]
  · by_cases h2 : ur = 0
    · cases hres : u.reset <;> simp [h1, h2, hres, Except.toOption]
    · simp [h1, h2, Except.toOption]

/-- Witness for C1: a fresh cache with remaining values 3 and 4 in the two
scopes; the gate allows, and both values are nonzero. -/
theorem claim1_witness :
    gate_limits
        { cache_file := some
            { app_24h := some { limit := some 17, remaining := some 3, reset := some 1000 }
              user_24h := some { limit := some 17, remaining := some 4, reset := some 1000 }
              window_15min := none
              timestamp := some 0
              source := some "error_headers" }
          tweet_log := [], now := 100 }
      = some
          { app_24h := some { limit := some 17, remaining := some 3, reset := some 1000 }
            user_24h := some { limit := some 17, remaining := some 4, reset := some 1000 }
            window_15min := none
            timestamp := some 0
            source := some "error_headers" }
    ∧ ((check_can_post_tweet
          { cache_file := some
              { app_24h := some { limit := some 17, remaining := some 3, reset := some 1000 }
                user_24h := some { limit := some 17, remaining := some 4, reset := some 1000 }
                window_15min := none
                timestamp := some 0
                source := some "error_headers" }
            tweet_log := [], now := 100 }).toOption.map Prod.fst = some true
        ↔ ((3 : Int) ≠ 0 ∧ (4 : Int) ≠ 0)) :=
  ⟨rfl, claim1_amended_allowed_iff_remaining_nonzero _ _ _ _ _ _ rfl rfl rfl rfl rfl⟩

/-- C2 counterexample: no cache file and an action log holding 17 entries
timestamped within the last 24 hours (count 17, derived remaining 0).  The
claim demands `allowed = false` derived from the local count; the gate
returns `allowed = true` with the unknown-status message, because it never
consults the action log. -/
theorem claim2_counterexample :
    (get_tweet_count_24h (List.replicate 17 (⟨"t", some 90, ""⟩ : RawTweet)) 100).count = 17
    ∧ (get_tweet_count_24h (List.replicate 17 (⟨"t", some 90, ""⟩ : RawTweet)) 100).remaining = 0
    ∧ check_can_post_tweet
        { cache_file := none
          tweet_log := List.replicate 17 ⟨"t", some 90, ""⟩
          now := 100 }
        = .ok (true, .unknownProceed) :=
  ⟨rfl, rfl, rfl⟩

/-- C2 amended: whenever no remote quota snapshot is available — the cache
loader yields nothing, be the cache file missing, unreadable, without a
parseable timestamp, or at least 24 hours old (and hence the live lookup,
which goes through the same loader, yields nothing too) — the admission
check returns `allowed = true` with the unknown-status message, whatever the
action log contains; the gate never falls back to the local count (that
derivation exists only in `get_tweet_count_24h`, which the gate does not
call). -/
theorem claim2_amended_no_cache_ignores_log
    (w : World) (h : get_cached_rate_limits w.cache_file w.now = none) :
    check_can_post_tweet w = .ok (true, .unknownProceed) := by
  simp [check_can_post_tweet, gate_limits, get_24h_rate_limits_from_api, h]

/-- Witness for C2: a cache file that is present but unusable — a
remote-confirmed exhausted snapshot captured more than 24 hours ago — and a
17-entry action log; the loader rejects the cache and the gate allows. -/
theorem claim2_witness :
    get_cached_rate_limits
        (some
          { app_24h := some { limit := some 17, remaining := some 0, reset := some 50000 }
            user_24h := some { limit := some 17, remaining := some 0, reset := some 50000 }
            window_15min := none
            timestamp := some 0
            source := some "error_headers" })
        100000
      = none
    ∧ check_can_post_tweet
        { cache_file := some
            { app_24h := some { limit := some 17, remaining := some 0, reset := some 50000 }
              user_24h := some { limit := some 17, remaining := some 0, reset := some 50000 }
              window_15min := none
              timestamp := some 0
              source := some "error_headers" }
          tweet_log := List.replicate 17 ⟨"t", some 99000, ""⟩
          now := 100000 }
        = .ok (true, .unknownProceed) :=
  ⟨rfl, claim2_amended_no_cache_ignores_log _ rfl⟩

/-- C3 counterexample: a cached snapshot captured 1 hour ago (fresh by the
24-hour age rule) whose application scope is exhausted with
`reset = 92800 ≤ now = 100000` (the reset lies in the past).  The claim
demands the snapshot be treated as void with no denial; the gate denies on
it, reporting a negative time until reset. -/
theorem claim3_counterexample :
    (92800 : Int) ≤ 100000
    ∧ check_can_post_tweet
        { cache_file := some
            { app_24h := some { limit := some 17, remaining := some 0, reset := some 92800 }
              user_24h := some { limit := some 17, remaining := some 17, reset := some 92800 }
              window_15min := none
              timestamp := some 96400
              source := some "error_headers" }
          tweet_log := [], now := 100000 }
        = .ok (false, .exhausted .app 92800 (-7200)) :=
  ⟨by decide, rfl⟩

/-- C3 amended: the admission check voids a cached snapshot only by capture
age (24 hours); a snapshot younger than that whose application-scope
`reset_at` lies at or before the current time is still used, and its stale
exhaustion still denies the action (the void-at-reset rule is implemented
only in `get_latest_rate_limit` of `tweet_counter.py`, which the gate does
not consult). -/
theorem claim3_amended_fresh_cache_denies_past_reset
    (w : World) (l : CacheFile) (a : ScopeEntry) (r t : Int)
    (hc : w.cache_file = some l) (ht : l.timestamp = some t)
    (hfresh : w.now - t < 86400)
    (ha : l.app_24h = some a) (h0 : a.remaining = some 0) (hr : a.reset = some r)
    (_hstale : r ≤ w.now) :
    check_can_post_tweet w = .ok (false, .exhausted .app r (r - w.now)) := by
  have hcached : get_cached_rate_limits w.cache_file w.now = some l := by
    simp [get_cached_rate_limits, hc, ht, hfresh]
  rw [check_can_post_tweet, gate_limits_of_cached hcached]
  simp [ha, h0, hr]

/-- Witness for C3: the stale-exhaustion world of the counterexample
satisfies every hypothesis of the amended statement. -/
theorem claim3_witness :
    ((100000 : Int) - 96400 < 86400 ∧ (92800 : Int) ≤ 100000)
    ∧ check_can_post_tweet
        { cache_file := some
            { app_24h := some { limit := some 17, remaining := some 0, reset := some 92800 }
              user_24h := some { limit := some 17, remaining := some 17, reset := some 92800 }
              window_15min := none
              timestamp := some 96400
              source := some "error_headers" }
          tweet_log := [], now := 100000 }
        = .ok (false, .exhausted .app 92800 (92800 - 100000)) :=
  ⟨⟨by decide, by decide⟩,
    claim3_amended_fresh_cache_denies_past_reset _ _ _ 92800 96400 rfl rfl (by decide)
      rfl rfl rfl (by decide)⟩

/-- C7 counterexample: a denial whose reasoning reports `-7200` seconds
(−2.0 hours) until reset.  The claim demands the reported duration be
clamped to at least zero, with an imminent-reset message when it is not
positive; the gate reports the negative duration unchanged. -/
theorem claim7_counterexample :
    check_can_post_tweet
        { cache_file := some
            { app_24h := some { limit := some 17, remaining := some 0, reset := some 42800 }
              user_24h := some { limit := some 17, remaining := some 17, reset := some 42800 }
              window_15min := none
              timestamp := some 46400
              source := some "error_headers" }
          tweet_log := [], now := 50000 }
        = .ok (false, .exhausted .app 42800 (-7200))
    ∧ (-7200 : Int) < 0 :=
  ⟨rfl, by decide⟩

/-- C7 amended: whenever the admission check denies because a scope is
exhausted, the reasoning names the blocking scope and reports the time until
reset computed as `reset_at − now` without clamping — the value may be
negative, and no imminent-reset message exists in the gate (clamping occurs
only in `format_rate_limit_display`, which the gate does not use). -/
theorem claim7_amended_reasoning_scope_and_unclamped_hours
    (w : World) (l : CacheFile) (t : Int)
    (hc : w.cache_file = some l) (ht : l.timestamp = some t)
    (hfresh : w.now - t < 86400) :
    (∀ a r, l.app_24h = some a → a.remaining = some 0 → a.reset = some r →
      check_can_post_tweet w = .ok (false, .exhausted .app r (r - w.now)))
    ∧ (∀ u r, (l.app_24h.getD ScopeEntry.empty).remaining.getD 0 ≠ 0 →
        l.user_24h = some u → u.remaining = some 0 → u.reset = some r →
        check_can_post_tweet w = .ok (false, .exhausted .user r (r - w.now))) := by
  have hcached : get_cached_rate_limits w.cache_file w.now = some l := by
    simp [get_cached_rate_limits, hc, ht, hfresh]
  constructor
  · intro a r ha h0 hr
    rw [check_can_post_tweet, gate_limits_of_cached hcached]
    simp [ha, h0, hr]
  · intro u r happ hu h0 hr
    rw [check_can_post_tweet, gate_limits_of_cached hcached]
    simp [happ, hu, h0, hr]

/-- Witness for C7: the app-scope branch at the counterexample world, and
the user-scope branch at a world whose application scope still has quota. -/
theorem claim7_witness :
    check_can_post_tweet
        { cache_file := some
            { app_24h := some { limit := some 17, remaining := some 0, reset := some 42800 }
              user_24h := some { limit := some 17, remaining := some 17, reset := some 42800 }
              window_15min := none
              timestamp := some 46400
              source := some "error_headers" }
          tweet_log := [], now := 50000 }
        = .ok (false, .exhausted .app 42800 (42800 - 50000))
    ∧ check_can_post_tweet
        { cache_file := some
            { app_24h := some { limit := some 17, remaining := some 9, reset := some 42800 }
              user_24h := some { limit := some 17, remaining := some 0, reset := some 60000 }
              window_15min := none
              timestamp := some 46400
              source := some "error_headers" }
          tweet_log := [], now := 50000 }
        = .ok (false, .exhausted .user 60000 (60000 - 50000)) :=
  ⟨(claim7_amended_reasoning_scope_and_unclamped_hours _ _ 46400 rfl rfl (by decide)).1
      _ 42800 rfl rfl rfl,
    (claim7_amended_reasoning_scope_and_unclamped_hours _ _ 46400 rfl rfl (by decide)).2
      _ 60000 (by decide) rfl rfl rfl⟩

/-- C8 counterexample: a rejection response whose headers report
`limit = 5` and `remaining = 10` for the application scope.  The constructed
snapshot copies both values, so `remaining ≤ limit` fails; nothing is
clamped or rejected at construction. -/
theorem claim8_counterexample :
    (extract_limits_from_429
        { app_limit := some 5, app_remaining := some 10, app_reset := none
          user_limit := none, user_remaining := none, user_reset := none
          rate_limit_limit := none, rate_limit_remaining := none
          rate_limit_reset := none } 0).app_24h
      = some { limit := some 5, remaining := some 10, reset := some 0 }
    ∧ ¬ ((10 : Int) ≤ 5) :=
  ⟨rfl, by decide⟩

/-- C8 amended: snapshot construction from rejection headers copies the
header values verbatim (defaulting absent fields to `limit = 17`,
`remaining = 0`, `reset = 0`), and `_save_latest_rate_limit` copies its
input verbatim; the invariant `remaining ≤ limit` is not enforced — it holds
in a constructed snapshot exactly when the supplied input satisfies it (in
particular it holds when the headers are absent, by the defaults). -/
theorem claim8_amended_construction_copies_unclamped (h : Headers429) (now : Int) :
    (∃ a, (extract_limits_from_429 h now).app_24h = some a
        ∧ (a.remaining.getD 0 ≤ a.limit.getD 0
            ↔ h.app_remaining.getD 0 ≤ h.app_limit.getD FREE_TIER_24H_LIMIT))
    ∧ (∃ u, (extract_limits_from_429 h now).user_24h = some u
        ∧ (u.remaining.getD 0 ≤ u.limit.getD 0
            ↔ h.user_remaining.getD 0 ≤ h.user_limit.getD FREE_TIER_24H_LIMIT))
    ∧ (∀ info : RateLimitCache,
        (save_latest_rate_limit info now).remaining = info.remaining
        ∧ (save_latest_rate_limit info now).limit = info.limit) :=
  ⟨⟨_, rfl, Iff.rfl⟩, ⟨_, rfl, Iff.rfl⟩, fun _ => ⟨rfl, rfl⟩⟩

end NBAPredict
